import Mathlib

/-!
Verification of the panthalassa chat core against its specification.

The Go sources are embedded shallowly: pure helpers become Lean
functions, bolt buckets become ordered association lists, collaborator
calls (key manager, transport, storage interfaces) become explicit
environment records of `Except`-valued results, and observable effects
(status writes, transport sends, correlation-table cuts) are returned
as explicit lists so theorems can talk about them.  Byte strings are
lists of naturals; 64-bit conversions are spelled out with `% 2 ^ 64`.
-/

namespace Panthalassa

/-- Byte strings are modelled as lists of naturals (one per byte). -/
abbrev Bytes := List Nat

instance {ε α : Type} [DecidableEq ε] [DecidableEq α] : DecidableEq (Except ε α) := fun a b =>
  match a, b with
  | .error e, .error f =>
    if h : e = f then .isTrue (h ▸ rfl) else .isFalse (fun hh => h (Except.error.inj hh))
  | .ok x, .ok y =>
    if h : x = y then .isTrue (h ▸ rfl) else .isFalse (fun hh => h (Except.ok.inj hh))
  | .error _, .ok _ => .isFalse (fun hh => Except.noConfusion hh)
  | .ok _, .error _ => .isFalse (fun hh => Except.noConfusion hh)

/-- Go `uint64(i)` conversion of an `int64` value. -/
def u64 (i : Int) : Nat := (i % (2 ^ 64)).toNat

/-- Go `int64(n)` conversion of a `uint64` value. -/
def i64 (n : Nat) : Int :=
  let m : Nat := n % 2 ^ 64
  if m < 2 ^ 63 then (m : Int) else (m : Int) - 2 ^ 64

/-- Go `copy(dst[:], src)` into a zero-initialised 32-byte array:
copies at most 32 bytes, the rest stays zero. -/
def copyTo32 (raw : Bytes) : Bytes :=
  raw.take 32 ++ List.replicate (32 - (raw.take 32).length) 0

/-- Value of a single hexadecimal digit (`encoding/hex`). -/
def hexDigit (c : Char) : Option Nat :=
  if '0' ≤ c ∧ c ≤ '9' then some (c.toNat - 48)
  else if 'a' ≤ c ∧ c ≤ 'f' then some (c.toNat - 87)
  else if 'A' ≤ c ∧ c ≤ 'F' then some (c.toNat - 55)
  else none

/-- `hex.DecodeString` on the character list: pairs of digits; an odd
length or a non-digit fails. -/
def hexDecodeChars : List Char → Option Bytes
  | [] => some []
  | [_] => none
  | c1 :: c2 :: rest =>
    match hexDigit c1, hexDigit c2, hexDecodeChars rest with
    | some d1, some d2, some bs => some ((16 * d1 + d2) :: bs)
    | _, _, _ => none

/-- `hex.DecodeString` -/
def hexDecode (s : String) : Except String Bytes :=
  match hexDecodeChars s.data with
  | some bs => .ok bs
  | none => .error "encoding/hex: invalid input"

/-- One hexadecimal digit character (lower case, as `encoding/hex` emits). -/
def hexDigitChar (n : Nat) : Char :=
  if n < 10 then Char.ofNat (48 + n) else Char.ofNat (87 + n)

/-- `hex.EncodeToString` -/
def hexEncode (bs : Bytes) : String :=
  String.mk (bs.foldr (fun b acc => hexDigitChar (b / 16 % 16) :: hexDigitChar (b % 16) :: acc) [])

namespace Db

/-! ### The `db` package: chat message storage (`part_005`) -/

/-- `db.StatusSent` -/
def StatusSent : Nat := 100
/-- `db.StatusFailedToSend` -/
def StatusFailedToSend : Nat := 200
/-- `db.StatusDelivered` -/
def StatusDelivered : Nat := 300
/-- `db.StatusFailedToHandle` -/
def StatusFailedToHandle : Nat := 400
/-- `db.StatusPersisted` -/
def StatusPersisted : Nat := 500

/-- The `statuses` registration map of the `db` package. -/
def registeredStatuses : List Nat :=
  [StatusSent, StatusFailedToSend, StatusDelivered, StatusFailedToHandle, StatusPersisted]

/-- `db.DAppMessage` (the `Params` map is irrelevant to validation and omitted). -/
structure DAppMessage where
  DAppPublicKey : Bytes
  typ : String
  ShouldSend : Bool
  deriving Repr, DecidableEq

/-- `db.Message` -/
structure Message where
  ID : String
  Version : Nat
  Status : Nat
  Received : Bool
  DApp : Option DAppMessage
  Message : Bytes
  CreatedAt : Int
  Sender : Bytes
  DatabaseID : Int
  deriving Repr, DecidableEq

/-- `db.ValidMessage`, clause for clause. -/
def ValidMessage (m : Message) : Except String Unit :=
  if m.ID = "" then .error "invalid message id (empty string)"
  else if m.Version = 0 then .error "invalid version - got 0"
  else if !(registeredStatuses.contains m.Status) then
    .error "invalid status (is not registered)"
  else if m.DApp.isNone && m.Message.isEmpty then
    .error "got invalid message - dapp and message are both nil"
  else if (match m.DApp with
           | some d => d.DAppPublicKey.length != 32
           | none => false) then
    .error "invalid dapp public key"
  else if m.CreatedAt ≤ 2147483647 then
    .error "invalid created at - must be bigger than 2147483647"
  else if m.Sender.length != 32 && m.DApp.isNone then
    .error "invalid sender"
  else .ok ()

/-- A partner bucket: bolt stores entries ordered by their 8-byte
big-endian key, so we model it as a key-ordered association list. -/
abbrev MsgStore := List (Nat × Message)

/-- `bolt.Bucket.Put`: inserts in key order, overwriting an existing key. -/
def storePut : MsgStore → Nat → Message → MsgStore
  | [], k, m => [(k, m)]
  | (k', m') :: rest, k, m =>
    if k < k' then (k, m) :: (k', m') :: rest
    else if k = k' then (k, m) :: rest
    else (k', m') :: storePut rest k m

/-- The key-adjustment loop of `persistMessage`: while the key is taken
and fewer than 1000 attempts were made, the code overwrites the key
with `uint64(msg.CreatedAt + 1)` (the same value on every retry) and
tries again.  `fuel` counts the remaining attempts (1000 - tried). -/
def adjustKeyLoop (taken : List Nat) (retryKey : Nat) : Nat → Nat → Nat
  | key, 0 => key
  | key, fuel + 1 =>
    if taken.contains key then adjustKeyLoop taken retryKey retryKey fuel else key

/-- `persistMessage`'s final database key for a message created at
`createdAt` when the bucket already holds the keys in `taken`. -/
def persistKeyFor (taken : List Nat) (createdAt : Int) : Nat :=
  adjustKeyLoop taken (u64 (createdAt + 1)) (u64 createdAt) 1000

/-- `BoltChatMessageStorage.persistMessage`: sets the version, validates,
picks the (possibly adjusted) timestamp key, stamps `DatabaseID`, and
puts the record into the partner bucket.  Serialisation and the AES
wrapper are abstracted away: the bucket holds the decoded records and
the committed store plus the assigned `DatabaseID` are returned. -/
def persistMessage (s : MsgStore) (msg : Message) : Except String (MsgStore × Int) :=
  let msg' := { msg with Version := 1 }
  match ValidMessage msg' with
  | .error e => .error e
  | .ok _ =>
    let key := persistKeyFor (s.map Prod.fst) msg'.CreatedAt
    let dbID := i64 key
    let stored := { msg' with DatabaseID := dbID }
    .ok (storePut s key stored, dbID)

/-- `decRawMsg` inside `Messages`: decoding the value under the cursor;
a nil value (cursor past the data) fails to unmarshal. -/
def decRawMsg : Option Message → Except String Message
  | none => .error "failed to unmarshal raw message"
  | some m => .ok m

/-- The comparison used by the final `sort.Slice` call of `Messages`
(ascending `DatabaseID`). -/
def msgLe (a b : Message) : Prop := a.DatabaseID ≤ b.DatabaseID

instance : DecidableRel msgLe := fun a b => Int.decLe _ _

instance : IsTotal Message msgLe := ⟨fun a b => Int.le_total _ _⟩

instance : IsTrans Message msgLe := ⟨fun _ _ _ => Int.le_trans⟩

/-- The backward collection loop of `Messages`: from the entry at
index `idx` the cursor steps to `idx - 1` and so on, collecting at most
`n` further records and stopping at the front of the bucket. -/
def walkBack (entries : MsgStore) : Nat → Nat → List Message
  | _, 0 => []
  | 0, _ + 1 => []
  | j + 1, n + 1 =>
    match entries.get? j with
    | none => []
    | some e => e.2 :: walkBack entries j n

/-- The cursor positioning of `Messages`: `start = 0` seeks to the last
entry, otherwise `Seek` finds the first entry with key at least
`uint64(start)`; `none` is the nil cursor position. -/
def seekIdx (entries : MsgStore) (start : Int) : Option Nat :=
  if start = 0 then (if entries.isEmpty then none else some (entries.length - 1))
  else entries.findIdx? (fun e => decide (u64 start ≤ e.1))

/-- `BoltChatMessageStorage.Messages`: amount guard, cursor seek,
decode of the first record, backward walk, final ascending sort. -/
def Messages (bucket : Option MsgStore) (start : Int) (amount : Nat) :
    Except String (List Message) :=
  if amount < 1 then .error "invalid amount - must be at least one"
  else
    match bucket with
    | none => .ok []
    | some entries =>
      match seekIdx entries start with
      | none =>
        match decRawMsg none with
        | .error e => .error e
        | .ok m => .ok (List.insertionSort msgLe [m])
      | some idx =>
        match decRawMsg ((entries.get? idx).map Prod.snd) with
        | .error e => .error e
        | .ok m => .ok (List.insertionSort msgLe (m :: walkBack entries idx (amount - 1)))

/-- `BoltChatMessageStorage.UpdateStatus` — an unimplemented stub in the
source: it ignores its arguments, changes nothing and reports success. -/
def UpdateStatus (s : MsgStore) (msgID : Int) (newStatus : Nat) : Except String MsgStore :=
  .ok s

end Db

namespace Chat

/-! ### The `chat` package: pre-key replenishment (`handler.go`) -/

/-- `x3dh.KeyPair` -/
structure KeyPair where
  publicKey : Bytes
  privateKey : Bytes
  deriving Repr, DecidableEq

/-- The protobuf pre-key (`bpb.PreKey`) returned for each generated
one-time pre-key: public half plus identity signature. -/
structure SignedPreKeyProto where
  publicKey : Bytes
  signature : Bytes
  deriving Repr, DecidableEq

/-- Collaborators of `oneTimePreKeysHandler`: the curve generator
(call-indexed), the identity signer behind `pk.Sign`, the protobuf
conversion, and the one-time pre-key pool. -/
structure PreKeysEnv where
  generateKeyPair : Nat → Except String KeyPair
  sign : Bytes → Except String Bytes
  toProtobuf : KeyPair → Bytes → Except String SignedPreKeyProto
  putResult : List KeyPair → Except String Unit

/-- The generation loop of `oneTimePreKeysHandler`: keeps calling
`curve.GenerateKeyPair` until the requested count is reached; any
generator error aborts the handler. -/
def generateKeyPairs (env : PreKeysEnv) : Nat → Nat → Except String (List KeyPair)
  | 0, _ => .ok []
  | k + 1, i =>
    match env.generateKeyPair i with
    | .error e => .error e
    | .ok kp =>
      match generateKeyPairs env k (i + 1) with
      | .error e => .error e
      | .ok rest => .ok (kp :: rest)

/-- The signing loop of `oneTimePreKeysHandler`: sign each public half
with the identity key and convert to protobuf; failures are replaced by
the fixed sanitized messages of the source. -/
def signPreKeys (env : PreKeysEnv) : List KeyPair → Except String (List SignedPreKeyProto)
  | [] => .ok []
  | kp :: rest =>
    match env.sign kp.publicKey with
    | .error _ => .error "failed to sign one time pre key"
    | .ok sig =>
      match env.toProtobuf kp sig with
      | .error _ => .error "failed to convert pre key to protobuf"
      | .ok pkProto =>
        match signPreKeys env rest with
        | .error e => .error e
        | .ok l => .ok (pkProto :: l)

/-- `Chat.oneTimePreKeysHandler`.  Returns the recorded pool `Put`
calls together with the handler result (`ok none` = request not
handled, it carried no pre-key count). -/
def oneTimePreKeysHandler (env : PreKeysEnv) (newOneTimePreKeys : Nat) :
    List (List KeyPair) × Except String (Option (List SignedPreKeyProto)) :=
  if newOneTimePreKeys = 0 then ([], .ok none)
  else if newOneTimePreKeys > 100 then
    ([], .error "requested more then the max allowed pre keys")
  else
    match generateKeyPairs env newOneTimePreKeys 0 with
    | .error e => ([], .error e)
    | .ok keyPairs =>
      match env.putResult keyPairs with
      | .error _ => ([keyPairs], .error "failed to persist generated key pairs")
      | .ok _ =>
        match signPreKeys env keyPairs with
        | .error e => ([keyPairs], .error e)
        | .ok preKeys => ([keyPairs], .ok (some preKeys))

/-! ### The `chat` package: `HandleInitialMessage` (`initial_message.go`) -/

/-- Association-list lookup standing for the `AdditionalData` map. -/
def lookupData : List (String × String) → String → Option String
  | [], _ => none
  | (k, v) :: rest, key => if k = key then some v else lookupData rest key

/-- The Double-Ratchet header of the handshake message; `dh` is the
ratchet public key the receiver reads the remote identity from. -/
structure DRHeader where
  dh : Bytes
  deriving Repr, DecidableEq

/-- The Double-Ratchet message inside the handshake message. -/
structure DRMessage where
  header : DRHeader
  deriving Repr, DecidableEq

/-- `chat.Message`, the fields `HandleInitialMessage` reads. -/
structure ChatInitMessage where
  typ : String
  additionalData : List (String × String)
  doubleratchetMessage : DRMessage
  deriving Repr, DecidableEq

/-- `chat.PreKeyBundlePrivate` -/
structure PreKeyBundlePrivate where
  oneTimePreKey : Bytes
  signedPreKey : Bytes
  deriving Repr, DecidableEq

/-- `x3dh.ProtocolInitialisation` -/
structure ProtocolInitialisation where
  remoteIdKey : Bytes
  remoteEphemeralKey : Bytes
  myOneTimePreKey : Bytes
  mySignedPreKey : Bytes
  deriving Repr, DecidableEq

/-- `Chat.HandleInitialMessage`.  The x3dh collaborator
`SecretFromRemote` is an external library call and is passed in as
`secretFromRemote`. -/
def HandleInitialMessage (secretFromRemote : ProtocolInitialisation → Except String Bytes)
    (m : ChatInitMessage) (keyBundlePrivate : PreKeyBundlePrivate) : Except String Bytes :=
  if m.typ ≠ "PROTOCOL_INITIALISATION" then
    .error "message must be of type PROTOCOL_INITIALISATION"
  else
    match lookupData m.additionalData "ephemeral_key" with
    | none => .error "missing ephemeral_key"
    | some remoteEphemeralKeyStr =>
      match hexDecode remoteEphemeralKeyStr with
      | .error e => .error e
      | .ok remoteEphemeralKeyRaw =>
        let remoteEphemeralKey := copyTo32 remoteEphemeralKeyRaw
        let remoteChatID := copyTo32 m.doubleratchetMessage.header.dh
        match secretFromRemote
            { remoteIdKey := remoteChatID
              remoteEphemeralKey := remoteEphemeralKey
              myOneTimePreKey := keyBundlePrivate.oneTimePreKey
              mySignedPreKey := keyBundlePrivate.signedPreKey } with
        | .error e => .error e
        | .ok sec => .ok sec

/-! ### The `chat` package: `SendMessage` (`send_message.go`)

The coordinator is embedded over an environment of collaborator
outcomes (deterministic: a collaborator called twice answers twice the
same).  The embedding returns the list of `UpdateStatus` calls issued
on the message store — `(message id, status code)` in call order —
next to the overall result, so the status-bookkeeping contract is
observable. -/

/-- `db.SharedSecret` as used by `SendMessage`. -/
structure SharedSecret where
  x3dhSS : Bytes
  accepted : Bool
  createdAt : Int
  usedOneTimePreKey : Option Bytes
  usedSignedPreKey : Bytes
  ephemeralKey : Bytes
  ephemeralKeySignature : Bytes
  baseID : Bytes
  deriving Repr, DecidableEq

/-- `x3dh.InitializedProtocol` -/
structure InitializedProtocol where
  sharedSecret : Bytes
  usedOneTimePreKey : Option Bytes
  usedSignedPreKey : Bytes
  ephemeralKey : Bytes
  deriving Repr, DecidableEq

/-- `prekey.PreKey` as read by `SendMessage`; `expired` is the outcome
of `OlderThan(SignedPreKeyValidTimeFrame)`. -/
structure PreKey where
  publicKey : Bytes
  expired : Bool
  deriving Repr, DecidableEq

/-- Collaborator outcomes for one `SendMessage` call, in source order. -/
structure SendEnv where
  hasAny : Except String Bool
  fetchPreKeyBundle : Except String Nat
  calculateSecret : Except String InitializedProtocol
  identitySign : Bytes → Except String Bytes
  randRead32 : Except String Bytes
  putSharedSecret : SharedSecret → Except String Unit
  getYoungest : Except String SharedSecret
  hasSignedPreKey : Except String Bool
  refreshSignedPreKey : Except String Unit
  getSignedPreKey : Except String PreKey
  verifySignature : PreKey → Except String Bool
  newWithRemoteKey : Bytes → Bytes → Except String Unit
  protoMarshal : Except String Bytes
  identityPublicKey : Except String String
  hexDecodeStr : String → Except String Bytes
  chatIdKeyPair : Except String KeyPair
  submitMessage : Except String Unit
  updateStatus : Nat → Except String Unit

/-- A recorded `messageDB.UpdateStatus` call: message id and status code. -/
abbrev StatusCall := String × Nat

/-- The `handleSendError` closure: attempt the `FailedToSend` status
write; if that write itself fails, combine both error texts, otherwise
surface the original error. -/
def handleSendError (env : SendEnv) (msgID : String) (e : String) :
    List StatusCall × String :=
  match env.updateStatus Db.StatusFailedToSend with
  | .error updateError =>
    ([(msgID, Db.StatusFailedToSend)],
     "failed to update status with error: " ++ updateError ++ " - original error: " ++ e)
  | .ok _ => ([(msgID, Db.StatusFailedToSend)], e)

/-- The `fetchSignedPreKey` closure: storage fetch plus signature
verification, each failure routed through `handleSendError`. -/
def fetchSignedPreKeyStep (env : SendEnv) (msgID : String) :
    List StatusCall × Except String PreKey :=
  match env.getSignedPreKey with
  | .error e =>
    let (u, e') := handleSendError env msgID e
    (u, .error e')
  | .ok signedPreKey =>
    match env.verifySignature signedPreKey with
    | .error e =>
      let (u, e') := handleSendError env msgID e
      (u, .error e')
    | .ok validSignature =>
      if !validSignature then
        let (u, e') := handleSendError env msgID "received invalid signature for pre key bundle"
        (u, .error e')
      else ([], .ok signedPreKey)

/-- The shared-secret creation branch (`if !exist`): bundle fetch and
key agreement route failures through `handleSendError`, but the
ephemeral-key signature and the base-id randomness return their error
raw. -/
def createSecretStep (env : SendEnv) (msgID : String) :
    List StatusCall × Except String Unit :=
  match env.fetchPreKeyBundle with
  | .error e =>
    let (u, e') := handleSendError env msgID e
    (u, .error e')
  | .ok _ =>
    match env.calculateSecret with
    | .error e =>
      let (u, e') := handleSendError env msgID e
      (u, .error e')
    | .ok ip =>
      match env.identitySign ip.ephemeralKey with
      | .error e => ([], .error e)
      | .ok eks =>
        match env.randRead32 with
        | .error e => ([], .error e)
        | .ok ssBaseID =>
          let ss : SharedSecret :=
            { x3dhSS := ip.sharedSecret
              accepted := false
              createdAt := 0
              usedOneTimePreKey := ip.usedOneTimePreKey
              usedSignedPreKey := ip.usedSignedPreKey
              ephemeralKey := ip.ephemeralKey
              ephemeralKeySignature := eks
              baseID := ssBaseID }
          match env.putSharedSecret ss with
          | .error e =>
            let (u, e') := handleSendError env msgID e
            (u, .error e')
          | .ok _ => ([], .ok ())

/-- The signed-pre-key expiry branch: on expiry, refresh and fetch
again (the fetch result is wrapped through `handleSendError` a second
time by the caller, as in the source). -/
def expiredStep (env : SendEnv) (msgID : String) (signedPreKey : PreKey) :
    List StatusCall × Except String PreKey :=
  if !signedPreKey.expired then ([], .ok signedPreKey)
  else
    match env.refreshSignedPreKey with
    | .error e =>
      let (u, e') := handleSendError env msgID e
      (u, .error e')
    | .ok _ =>
      match fetchSignedPreKeyStep env msgID with
      | (u, .error e) =>
        let (u2, e') := handleSendError env msgID e
        (u ++ u2, .error e')
      | (u, .ok spk) => (u, .ok spk)

/-- The `validX3dhPub` closure: rejects the empty (all-zero) key and a
key that is not 32 bytes. -/
def validX3dhPub (pub : Bytes) : Except String Unit :=
  if pub = List.replicate 32 0 then
    .error "got invalid x3dh public key - seems to be empty"
  else if pub.length ≠ 32 then
    .error "got invalid x3dh public key - length MUST be 32"
  else .ok ()

/-- The handshake-metadata attachment for an unaccepted secret: every
failure in this block returns the raw error with no status write. -/
def attachHandshake (env : SendEnv) (ss : SharedSecret) :
    List StatusCall × Except String Unit :=
  match (match ss.usedOneTimePreKey with
         | some otp => validX3dhPub otp
         | none => .ok ()) with
  | .error e => ([], .error e)
  | .ok _ =>
    match validX3dhPub ss.usedSignedPreKey with
    | .error e => ([], .error e)
    | .ok _ =>
      match validX3dhPub ss.ephemeralKey with
      | .error e => ([], .error e)
      | .ok _ =>
        match env.chatIdKeyPair with
        | .error e => ([], .error e)
        | .ok kp =>
          match env.identitySign kp.publicKey with
          | .error e => ([], .error e)
          | .ok _ => ([], .ok ())

/-- `Chat.SendMessage`, step for step over the collaborator outcomes. -/
def SendMessage (env : SendEnv) (msgID : String) :
    List StatusCall × Except String Unit :=
  match env.hasAny with
  | .error e =>
    let (u, e') := handleSendError env msgID e
    (u, .error e')
  | .ok exist =>
    match (if exist then ([], .ok ()) else createSecretStep env msgID) with
    | (u, .error e) => (u, .error e)
    | (_, .ok _) =>
      match env.getYoungest with
      | .error e =>
        let (u, e') := handleSendError env msgID e
        (u, .error e')
      | .ok ss =>
        match env.hasSignedPreKey with
        | .error e =>
          let (u, e') := handleSendError env msgID e
          (u, .error e')
        | .ok hasSPK =>
          match (if hasSPK then Except.ok () else env.refreshSignedPreKey) with
          | .error e =>
            let (u, e') := handleSendError env msgID e
            (u, .error e')
          | .ok _ =>
            match fetchSignedPreKeyStep env msgID with
            | (u, .error e) =>
              let (u2, e') := handleSendError env msgID e
              (u ++ u2, .error e')
            | (_, .ok signedPreKey0) =>
              match expiredStep env msgID signedPreKey0 with
              | (u, .error e) => (u, .error e)
              | (_, .ok signedPreKey) =>
                match ((if !ss.accepted then
                        (if ss.baseID.length ≠ 32 then
                          let (u, e') := handleSendError env msgID
                            "base it is invalid - must have 32 bytes"
                          (u, Except.error e')
                        else ([], .ok ()))
                       else ([], .ok ())) :
                       List StatusCall × Except String Unit) with
                | (u, .error e) => (u, .error e)
                | (_, .ok _) =>
                  match env.newWithRemoteKey ss.x3dhSS signedPreKey.publicKey with
                  | .error e =>
                    let (u, e') := handleSendError env msgID e
                    (u, .error e')
                  | .ok _ =>
                    match env.protoMarshal with
                    | .error e =>
                      let (u, e') := handleSendError env msgID e
                      (u, .error e')
                    | .ok _ =>
                      match env.identityPublicKey with
                      | .error e =>
                        let (u, e') := handleSendError env msgID e
                        (u, .error e')
                      | .ok senderIdPubStr =>
                        match env.hexDecodeStr senderIdPubStr with
                        | .error e =>
                          let (u, e') := handleSendError env msgID e
                          (u, .error e')
                        | .ok _ =>
                          match (if !ss.accepted then attachHandshake env ss
                                 else ([], .ok ())) with
                          | (u, .error e) => (u, .error e)
                          | (_, .ok _) =>
                            match env.submitMessage with
                            | .error e =>
                              let (u, e') := handleSendError env msgID e
                              (u, .error e')
                            | .ok _ =>
                              match env.updateStatus Db.StatusSent with
                              | .error e => ([(msgID, Db.StatusSent)], .error e)
                              | .ok _ => ([(msgID, Db.StatusSent)], .ok ())

end Chat

namespace Backend

/-! ### The `backend` package: inbound dispatch (`part_001`,
`NewServerBackend`'s `OnMessage` callback) -/

/-- `bpb.BackendMessage_Request` (contents are not inspected by dispatch). -/
structure BRequest where
  tag : Nat
  deriving Repr, DecidableEq

/-- `bpb.BackendMessage_Response`; dispatch only looks at the `Auth` marker. -/
structure BResponse where
  auth : Option Nat
  payload : Nat
  deriving Repr, DecidableEq

/-- `bpb.BackendMessage` -/
structure BackendMessage where
  requestID : String
  request : Option BRequest
  response : Option BResponse
  error : String
  deriving Repr, DecidableEq

/-- `backend.RequestHandler` -/
abbrev RequestHandler := BRequest → Except String (Option BResponse)

/-- The error message sent back to the remote peer when a handler fails. -/
def errorReply (reqID e : String) : BackendMessage :=
  { requestID := reqID, request := none, response := none, error := e }

/-- The response message sent back for a handled request. -/
def responseReply (reqID : String) (resp : BResponse) : BackendMessage :=
  { requestID := reqID, request := none, response := some resp, error := "" }

/-- A value pushed into a caller's response channel. -/
inductive Delivery where
  | failure (reqID : String) (e : String)
  | success (reqID : String) (resp : BResponse)
  deriving Repr, DecidableEq

/-- Observable outcome of one inbound dispatch turn. -/
structure DispatchResult where
  sends : List BackendMessage
  delivered : List Delivery
  handlersInvoked : Nat
  authenticated : Bool
  stackAfter : List String
  outcome : Except String Unit
  deriving Repr, DecidableEq

/-- The handler chain loop: a handler error sends a sanitized error
reply and ends the turn with the send's result; a `none` response
passes to the next handler; a non-`none` response is sent and — as in
the source, which has no break — the loop continues with the next
handler.  Returns (handlers invoked, sends attempted, turn outcome). -/
def handlerLoop (send : BackendMessage → Except String Unit) (reqID : String)
    (req : BRequest) : List RequestHandler → Nat × List BackendMessage × Except String Unit
  | [] => (0, [], .ok ())
  | h :: rest =>
    match h req with
    | .error e => (1, [errorReply reqID e], send (errorReply reqID e))
    | .ok none =>
      let (n, sends, out) := handlerLoop send reqID req rest
      (n + 1, sends, out)
    | .ok (some resp) =>
      match send (responseReply reqID resp) with
      | .error e => (1, [responseReply reqID resp], .error e)
      | .ok _ =>
        let (n, sends, out) := handlerLoop send reqID req rest
        (n + 1, responseReply reqID resp :: sends, out)

/-- `requestStack.Cut`: atomically remove and return the pending entry;
the table is modelled as the list of outstanding request ids. -/
def cutStack (stack : List String) (reqID : String) : Option (List String) :=
  if stack.contains reqID then some (stack.erase reqID) else none

/-- The `OnMessage` callback installed by `NewServerBackend`: the
dual-type guard, then the request handler chain, then response
correlation with auth handling. -/
def onMessage (handlers : List RequestHandler)
    (send : BackendMessage → Except String Unit)
    (stack : List String) (authenticated : Bool) (msg : BackendMessage) : DispatchResult :=
  if msg.request.isSome && msg.response.isSome then
    { sends := [], delivered := [], handlersInvoked := 0, authenticated := authenticated,
      stackAfter := stack,
      outcome := .error "a message cant have a response and a request at the same time" }
  else
    match msg.request with
    | some req =>
      let (n, sends, out) := handlerLoop send msg.requestID req handlers
      { sends := sends, delivered := [], handlersInvoked := n,
        authenticated := authenticated, stackAfter := stack, outcome := out }
    | none =>
      match msg.response with
      | some resp =>
        match cutStack stack msg.requestID with
        | none =>
          { sends := [], delivered := [], handlersInvoked := 0,
            authenticated := authenticated, stackAfter := stack,
            outcome := .error ("failed to fetch response channel for id: " ++ msg.requestID) }
        | some stack' =>
          if msg.error ≠ "" then
            { sends := [], delivered := [Delivery.failure msg.requestID msg.error],
              handlersInvoked := 0, authenticated := authenticated,
              stackAfter := stack', outcome := .ok () }
          else
            { sends := [], delivered := [Delivery.success msg.requestID resp],
              handlersInvoked := 0,
              authenticated := authenticated || resp.auth.isSome,
              stackAfter := stack', outcome := .ok () }
      | none =>
        { sends := [], delivered := [], handlersInvoked := 0,
          authenticated := authenticated, stackAfter := stack, outcome := .ok () }

end Backend

namespace Api

/-! ### The `api` package: remote-proxy Double-Ratchet key store
(`part_007`, `DoubleRatchetKeyStoreApi.Get`) -/

/-- `dr.Key\x7b\x7d`: the zero message key. -/
def zeroKey : Bytes := List.replicate 32 0

/-- Collaborator outcomes for one proxy `Get`: the 8-second-guarded
request (yielding the raw `MessageKey` field), `aes.Unmarshal`, and
`km.AESDecrypt`. -/
structure DRApiGetEnv where
  request : Except String Bytes
  aesUnmarshal : Bytes → Except String Bytes
  aesDecrypt : Bytes → Except String Bytes

/-- `DoubleRatchetKeyStoreApi.Get`: every failure — transport/timeout,
malformed ciphertext, decryption failure, wrong key length — yields
`(zero key, false)`; only a well-formed 32-byte decrypted key is
returned with `true`. -/
def DRKeyStoreApiGet (env : DRApiGetEnv) : Bytes × Bool :=
  match env.request with
  | .error _ => (zeroKey, false)
  | .ok raw =>
    match env.aesUnmarshal raw with
    | .error _ => (zeroKey, false)
    | .ok ct =>
      match env.aesDecrypt ct with
      | .error _ => (zeroKey, false)
      | .ok messageKey =>
        if messageKey.length ≠ 32 then (zeroKey, false)
        else (copyTo32 messageKey, true)

end Api

namespace Client

/-! ### The `client` package: device-proxied Double-Ratchet key store
(`client_key_store.go`) -/

/-- A request sent to the device api by the client key store. -/
inductive KSCall where
  | getCall (key : String) (msgNum : Nat)
  | putCall (indexKey : String) (msgNumber : Nat) (ct : Bytes)
  | deleteMKCall (indexKey : String) (msgNumber : Nat)
  deriving Repr, DecidableEq

/-- The decoded reply of `UnmarshalDRKeyStoreGetResponse`. -/
structure GetResponse where
  key : Bytes
  ok : Bool
  deriving Repr, DecidableEq

/-- Modelled from the spec: `UnmarshalDRKeyStoreGetResponse` is not
among the given sources (only its caller is).  Per the spec the proxy
decrypts the message-key material with the local authenticated
encryption key and a malformed or undecryptable payload is a failure;
on failure Go hands back the zero `GetResponse` value next to the
error, i.e. a zero key and `ok = false`. -/
def unmarshalFailureResponse : GetResponse :=
  { key := List.replicate 32 0, ok := false }

/-- Collaborator outcomes for one client key store call. -/
structure ClientKSEnv where
  send : KSCall → Except String Unit
  respError : Option String
  unmarshalGetResponse : Except String GetResponse
  aesEncrypt : Bytes → Except String Bytes

/-- `DoubleRatchetKeyStore.Get`: device-api send, channel error, and
unmarshal failures all degrade to `(zero key, false)`. -/
def clientGet (env : ClientKSEnv) (k : Bytes) (msgNum : Nat) :
    List KSCall × (Bytes × Bool) :=
  let call := KSCall.getCall (hexEncode k) msgNum
  match env.send call with
  | .error _ => ([call], (Api.zeroKey, false))
  | .ok _ =>
    match env.respError with
    | some _ => ([call], (Api.zeroKey, false))
    | none =>
      match env.unmarshalGetResponse with
      | .error _ => ([call], (unmarshalFailureResponse.key, false))
      | .ok keyResp => ([call], (keyResp.key, keyResp.ok))

/-- `DoubleRatchetKeyStore.Put`: encrypts the message key (an
encryption error is only logged; the zero ciphertext is then sent) and
issues the put request. -/
def clientPut (env : ClientKSEnv) (k : Bytes) (msgNum : Nat) (mk : Bytes) :
    List KSCall × Unit :=
  let ct := match env.aesEncrypt mk with
            | .ok ct => ct
            | .error _ => []
  ([KSCall.putCall (hexEncode k) msgNum ct], ())

/-- `DoubleRatchetKeyStore.DeleteMk`: issues the delete request. -/
def clientDeleteMk (k : Bytes) (msgNum : Nat) : List KSCall × Unit :=
  ([KSCall.deleteMKCall (hexEncode k) msgNum], ())

/-- `DoubleRatchetKeyStore.DeletePk`: the body is empty. -/
def clientDeletePk (k : Bytes) : List KSCall × Unit :=
  ([], ())

/-- `DoubleRatchetKeyStore.Count`: returns the constant 9. -/
def clientCount (k : Bytes) : List KSCall × Nat :=
  ([], 9)

/-- `DoubleRatchetKeyStore.All`: returns the empty map. -/
def clientAll : List KSCall × List (Bytes × List (Nat × Bytes)) :=
  ([], [])

end Client

namespace App

/-! ### The `panthalassa` package: singleton api surface (`part_002`)

The process-wide `panthalassaInstance` pointer is the `Option Instance`
state threaded through every exported function.  Each function returns
the collaborator calls it performed, the state afterwards, and its
result. -/

/-- A live panthalassa instance (contents irrelevant to the guards). -/
structure Instance where
  tag : Nat
  deriving Repr, DecidableEq

/-- Collaborator calls observable behind the exported api surface. -/
inductive AppCall where
  | getEthereumPrivateKey
  | getEthereumAddress
  | apiRespond
  | exportStore
  | identityPublicKey
  | getMnemonic
  | signProfile
  | instanceStop
  | p2pNew
  | openDb
  | newBackend
  | newChat
  | newDAppRegistry
  | openDAppCall
  | startDAppCall
  | callFunction
  | allDApps
  | connectDevServer
  | renderMessageCall
  | shutDownDApp
  deriving Repr, DecidableEq

/-- Collaborator outcomes for the exported api functions. -/
structure AppEnv where
  getEthereumPrivateKey : Except String String
  getEthereumAddress : Except String String
  base64Decode : String → Except String Bytes
  protoUnmarshalResponse : Bytes → Except String Nat
  respond : Except String Unit
  exportStore : Except String String
  identityPublicKey : Except String String
  mnemonic : String
  signProfile : Except String String
  stopResult : Except String Unit
  hexDecodeStr : String → Except String Bytes
  openDApp : Except String Unit
  startDApp : Except String Unit
  callFunction : Except String Unit
  allDApps : Except String String
  multiaddrParse : String → Except String Unit
  connectDevServer : Except String Unit
  renderMessage : Except String String
  shutDownDApp : Except String Unit
  p2pNew : Except String Unit
  kmToDBPath : Except String String
  dbOpen : Except String Unit
  newBackend : Except String Unit
  newChat : Except String Unit
  newDAppRegistry : Except String Unit

/-- Result triple of an exported api function. -/
abbrev ApiResult (α : Type) := List AppCall × Option Instance × Except String α

/-- `panthalassa.start`: refuses when an instance already lives;
otherwise builds the stack step by step and installs the singleton. -/
def start (st : Option Instance) (env : AppEnv) : ApiResult Unit :=
  match st with
  | some p => ([], some p, .error "call stop first in order to create a new panthalassa instance")
  | none =>
    match env.p2pNew with
    | .error e => ([AppCall.p2pNew], none, .error e)
    | .ok _ =>
      match env.kmToDBPath with
      | .error e => ([AppCall.p2pNew], none, .error e)
      | .ok _ =>
        match env.dbOpen with
        | .error e => ([AppCall.p2pNew, AppCall.openDb], none, .error e)
        | .ok _ =>
          match env.newBackend with
          | .error e => ([AppCall.p2pNew, AppCall.openDb, AppCall.newBackend], none, .error e)
          | .ok _ =>
            match env.newChat with
            | .error e =>
              ([AppCall.p2pNew, AppCall.openDb, AppCall.newBackend, AppCall.newChat],
               none, .error e)
            | .ok _ =>
              match env.newDAppRegistry with
              | .error e =>
                ([AppCall.p2pNew, AppCall.openDb, AppCall.newBackend, AppCall.newChat,
                  AppCall.newDAppRegistry], none, .error e)
              | .ok _ =>
                ([AppCall.p2pNew, AppCall.openDb, AppCall.newBackend, AppCall.newChat,
                  AppCall.newDAppRegistry], some { tag := 0 }, .ok ())

/-- `panthalassa.EthPrivateKey` -/
def EthPrivateKey (st : Option Instance) (env : AppEnv) : ApiResult String :=
  match st with
  | none => ([], none, .error "you have to start panthalassa")
  | some p => ([AppCall.getEthereumPrivateKey], some p, env.getEthereumPrivateKey)

/-- `panthalassa.EthAddress` -/
def EthAddress (st : Option Instance) (env : AppEnv) : ApiResult String :=
  match st with
  | none => ([], none, .error "you have to start panthalassa")
  | some p => ([AppCall.getEthereumAddress], some p, env.getEthereumAddress)

/-- `panthalassa.SendResponse` -/
def SendResponse (st : Option Instance) (env : AppEnv) (data : String) : ApiResult Unit :=
  match st with
  | none => ([], none, .error "you have to start panthalassa")
  | some p =>
    match env.base64Decode data with
    | .error e => ([], some p, .error e)
    | .ok dataBytes =>
      match env.protoUnmarshalResponse dataBytes with
      | .error e => ([], some p, .error e)
      | .ok _ => ([AppCall.apiRespond], some p, env.respond)

/-- `panthalassa.ExportAccountStore` -/
def ExportAccountStore (st : Option Instance) (env : AppEnv) : ApiResult String :=
  match st with
  | none => ([], none, .error "you have to start panthalassa")
  | some p => ([AppCall.exportStore], some p, env.exportStore)

/-- `panthalassa.IdentityPublicKey` -/
def IdentityPublicKey (st : Option Instance) (env : AppEnv) : ApiResult String :=
  match st with
  | none => ([], none, .error "you have to start panthalassa")
  | some p => ([AppCall.identityPublicKey], some p, env.identityPublicKey)

/-- `panthalassa.GetMnemonic` -/
def GetMnemonic (st : Option Instance) (env : AppEnv) : ApiResult String :=
  match st with
  | none => ([], none, .error "you have to start panthalassa")
  | some p => ([AppCall.getMnemonic], some p, .ok env.mnemonic)

/-- `panthalassa.SignProfile` (profile signing, protobuf conversion and
marshalling collapsed into one collaborator outcome). -/
def SignProfile (st : Option Instance) (env : AppEnv) : ApiResult String :=
  match st with
  | none => ([], none, .error "you have to start panthalassa")
  | some p => ([AppCall.signProfile], some p, env.signProfile)

/-- `panthalassa.Stop`: resets the singleton in both branches. -/
def Stop (st : Option Instance) (env : AppEnv) : ApiResult Unit :=
  match st with
  | none => ([], none, .error "you have to start panthalassa in order to stop it")
  | some _ =>
    match env.stopResult with
    | .error e => ([AppCall.instanceStop], none, .error e)
    | .ok _ => ([AppCall.instanceStop], none, .ok ())

/-- `panthalassa.GetIdentityPublicKey` -/
def GetIdentityPublicKey (st : Option Instance) (env : AppEnv) : ApiResult String :=
  match st with
  | none => ([], none, .error "you have to start panthalassa first")
  | some p => ([AppCall.identityPublicKey], some p, env.identityPublicKey)

/-- `panthalassa.ConnectToDAppDevHost` -/
def ConnectToDAppDevHost (st : Option Instance) (env : AppEnv) (address : String) :
    ApiResult Unit :=
  match st with
  | none => ([], none, .error "you have to start panthalassa first")
  | some p =>
    match env.multiaddrParse address with
    | .error e => ([], some p, .error e)
    | .ok _ => ([AppCall.connectDevServer], some p, env.connectDevServer)

/-- `panthalassa.OpenDApp` -/
def OpenDApp (st : Option Instance) (env : AppEnv) (id : String) : ApiResult Unit :=
  match st with
  | none => ([], none, .error "you have to start panthalassa first")
  | some p =>
    match env.hexDecodeStr id with
    | .error e => ([], some p, .error e)
    | .ok dAppSigningKey =>
      if dAppSigningKey.length ≠ 32 then ([], some p, .error "invalid DApp signing key")
      else ([AppCall.openDAppCall], some p, env.openDApp)

/-- `panthalassa.StartDApp` -/
def StartDApp (st : Option Instance) (env : AppEnv) (key : String) : ApiResult Unit :=
  match st with
  | none => ([], none, .error "you have to start panthalassa first")
  | some p =>
    match env.hexDecodeStr key with
    | .error e => ([], some p, .error e)
    | .ok dAppSigningKey =>
      if dAppSigningKey.length ≠ 32 then
        ([], some p, .error "DApp singing key must be 32 bytes long")
      else ([AppCall.startDAppCall], some p, env.startDApp)

/-- `panthalassa.RenderMessage` -/
def RenderMessage (st : Option Instance) (env : AppEnv) (key : String) : ApiResult String :=
  match st with
  | none => ([], none, .error "you have to start panthalassa first")
  | some p =>
    match env.hexDecodeStr key with
    | .error e => ([], some p, .error e)
    | .ok dAppSigningKey =>
      if dAppSigningKey.length ≠ 32 then
        ([], some p, .error "dapp signign key must be 32 bytes long")
      else ([AppCall.renderMessageCall], some p, env.renderMessage)

/-- `panthalassa.CallDAppFunction`: the negative-id guard runs before
the singleton guard. -/
def CallDAppFunction (st : Option Instance) (env : AppEnv) (key : String) (id : Int) :
    ApiResult Unit :=
  if id < 0 then ([], st, .error "got negative number but need uint")
  else
    match st with
    | none => ([], none, .error "you have to start panthalassa first")
    | some p =>
      match env.hexDecodeStr key with
      | .error e => ([], some p, .error e)
      | .ok dAppSigningKey =>
        if dAppSigningKey.length ≠ 32 then
          ([], some p, .error "dapp signign key must be 32 bytes long")
        else ([AppCall.callFunction], some p, env.callFunction)

/-- `panthalassa.StopDApp` -/
def StopDApp (st : Option Instance) (env : AppEnv) (key : String) : ApiResult Unit :=
  match st with
  | none => ([], none, .error "you have to start panthalassa first")
  | some p =>
    match env.hexDecodeStr key with
    | .error e => ([], some p, .error e)
    | .ok dAppSigningKey =>
      if dAppSigningKey.length ≠ 32 then
        ([], some p, .error "DApp singing key must be 32 bytes long")
      else ([AppCall.shutDownDApp], some p, env.shutDownDApp)

/-- `panthalassa.DApps` (storage fetch and json marshalling collapsed
into one collaborator outcome). -/
def DApps (st : Option Instance) (env : AppEnv) : ApiResult String :=
  match st with
  | none => ([], none, .error "you have to start panthalassa first")
  | some p => ([AppCall.allDApps], some p, env.allDApps)

end App

/-! ### Concrete instances used to evaluate the embeddings -/

/-- A valid chat message created at nanosecond timestamp 2147483648. -/
def c3MsgA : Db.Message :=
  { ID := "a", Version := 1, Status := Db.StatusPersisted, Received := false,
    DApp := none, Message := [1], CreatedAt := 2147483648,
    Sender := List.replicate 32 7, DatabaseID := 0 }

/-- A second message with the same creation timestamp. -/
def c3MsgB : Db.Message := { c3MsgA with ID := "b" }

/-- A third message with the same creation timestamp. -/
def c3MsgC : Db.Message := { c3MsgA with ID := "c" }

/-- The record as it is committed: id, stamped `DatabaseID`. -/
def c3Stored (id : String) (dbid : Int) : Db.Message :=
  { c3MsgA with ID := id, DatabaseID := dbid }

/-- Store after the first persist. -/
def c3S1 : Db.MsgStore := [(2147483648, c3Stored "a" 2147483648)]

/-- Store after the second persist. -/
def c3S2 : Db.MsgStore :=
  [(2147483648, c3Stored "a" 2147483648), (2147483649, c3Stored "b" 2147483649)]

/-- Store after the third persist: the key 2147483649 is reused and the
record "b" is overwritten by "c". -/
def c3S3 : Db.MsgStore :=
  [(2147483648, c3Stored "a" 2147483648), (2147483649, c3Stored "c" 2147483649)]

/-- A committed record for exercising `Messages`. -/
def w5Msg : Db.Message :=
  { ID := "w", Version := 1, Status := Db.StatusPersisted, Received := false,
    DApp := none, Message := [2], CreatedAt := 3000000000,
    Sender := List.replicate 32 9, DatabaseID := 3000000000 }

/-- Collaborators for the pre-key replenishment handler in which every
call succeeds. -/
def c4Env : Chat.PreKeysEnv where
  generateKeyPair := fun i => .ok { publicKey := [i], privateKey := [i + 1] }
  sign := fun pk => .ok pk
  toProtobuf := fun kp sig => .ok { publicKey := kp.publicKey, signature := sig }
  putResult := fun _ => .ok ()

/-- The key pairs `c4Env` generates for a request of 100. -/
def c4Gen : List Chat.KeyPair :=
  match Chat.generateKeyPairs c4Env 100 0 with
  | .ok g => g
  | .error _ => []

/-- The signed pre-keys the handler returns for a request of 100. -/
def c4Signed : List Chat.SignedPreKeyProto :=
  match (Chat.oneTimePreKeysHandler c4Env 100).2 with
  | .ok (some l) => l
  | _ => []

/-- The authoritative (already accepted) shared secret of the send-path
environment below. -/
def c1SS : Chat.SharedSecret :=
  { x3dhSS := List.replicate 32 1, accepted := true, createdAt := 2147483648,
    usedOneTimePreKey := none, usedSignedPreKey := List.replicate 32 2,
    ephemeralKey := List.replicate 32 3, ephemeralKeySignature := [9],
    baseID := List.replicate 32 4 }

/-- The cached, non-expired signed pre-key of the send-path environment. -/
def c1SPK : Chat.PreKey := { publicKey := List.replicate 32 5, expired := false }

/-- A send-path environment in which every collaborator succeeds. -/
def c1BaseEnv : Chat.SendEnv where
  hasAny := .ok true
  fetchPreKeyBundle := .ok 0
  calculateSecret := .ok
    { sharedSecret := List.replicate 32 1, usedOneTimePreKey := none,
      usedSignedPreKey := List.replicate 32 2, ephemeralKey := List.replicate 32 3 }
  identitySign := fun _ => .ok [9]
  randRead32 := .ok (List.replicate 32 4)
  putSharedSecret := fun _ => .ok ()
  getYoungest := .ok c1SS
  hasSignedPreKey := .ok true
  refreshSignedPreKey := .ok ()
  getSignedPreKey := .ok c1SPK
  verifySignature := fun _ => .ok true
  newWithRemoteKey := fun _ _ => .ok ()
  protoMarshal := .ok [1]
  identityPublicKey := .ok "aa"
  hexDecodeStr := fun s => hexDecode s
  chatIdKeyPair := .ok { publicKey := List.replicate 32 6, privateKey := List.replicate 32 7 }
  submitMessage := .ok ()
  updateStatus := fun _ => .ok ()

/-- Send-path environment: the shared-secret existence check fails,
the status write succeeds. -/
def c1EnvA : Chat.SendEnv := { c1BaseEnv with hasAny := .error "has any failure" }

/-- Send-path environment: the existence check fails and so does the
status write. -/
def c1EnvB : Chat.SendEnv :=
  { c1BaseEnv with
    hasAny := .error "has any failure"
    updateStatus := fun _ => .error "status write failure" }

/-- Send-path environment: everything succeeds up to the final backend
submission, which fails. -/
def c1EnvC : Chat.SendEnv := { c1BaseEnv with submitMessage := .error "submit failure" }

/-- Send-path environment: no shared secret yet, and signing the fresh
ephemeral key fails. -/
def c1EnvD : Chat.SendEnv :=
  { c1BaseEnv with
    hasAny := .ok false
    identitySign := fun _ => .error "identity sign failure" }

/-- Two backend responses for exercising the handler chain. -/
def c2RespA : Backend.BResponse := { auth := none, payload := 1 }

/-- See `c2RespA`. -/
def c2RespB : Backend.BResponse := { auth := none, payload := 2 }

/-- A handler that always answers with `c2RespA`. -/
def c2HandlerA : Backend.RequestHandler := fun _ => .ok (some c2RespA)

/-- A handler that always answers with `c2RespB`. -/
def c2HandlerB : Backend.RequestHandler := fun _ => .ok (some c2RespB)

/-- A handler that declines every request. -/
def c2HandlerNil : Backend.RequestHandler := fun _ => .ok none

/-- A handler that fails on every request. -/
def c2HandlerErr : Backend.RequestHandler := fun _ => .error "handler failure"

/-- A transport whose sends always succeed. -/
def c2SendOk : Backend.BackendMessage → Except String Unit := fun _ => .ok ()

/-- An inbound envelope carrying a request only. -/
def c2ReqMsg : Backend.BackendMessage :=
  { requestID := "1", request := some { tag := 0 }, response := none, error := "" }

/-- A transport for the dispatch-guard witness. -/
def c6SendOk : Backend.BackendMessage → Except String Unit := fun _ => .ok ()

/-- An inbound envelope carrying both a request and a response. -/
def c6BothMsg : Backend.BackendMessage :=
  { requestID := "7", request := some { tag := 0 },
    response := some { auth := none, payload := 0 }, error := "" }

/-- An inbound response whose request id matches no outstanding request. -/
def c6OrphanMsg : Backend.BackendMessage :=
  { requestID := "9", request := none,
    response := some { auth := none, payload := 0 }, error := "" }

/-- A handler for the dispatch-guard witness; it must never run. -/
def c6Handler : Backend.RequestHandler := fun _ => .ok none

/-- An x3dh collaborator that derives a secret from any input. -/
def c7SecretOk : Chat.ProtocolInitialisation → Except String Bytes :=
  fun _ => .ok (List.replicate 32 1)

/-- A handshake message with the correct sentinel type and a present
ephemeral key, but an absent (empty) remote identity key in the
ratchet header. -/
def c7Msg : Chat.ChatInitMessage :=
  { typ := "PROTOCOL_INITIALISATION",
    additionalData := [("ephemeral_key", "aa")],
    doubleratchetMessage := { header := { dh := [] } } }

/-- A handshake message of the wrong type. -/
def c7BadTypeMsg : Chat.ChatInitMessage := { c7Msg with typ := "HELLO" }

/-- A handshake message missing the ephemeral key. -/
def c7NoKeyMsg : Chat.ChatInitMessage := { c7Msg with additionalData := [] }

/-- The receiver's private pre-key bundle. -/
def c7Bundle : Chat.PreKeyBundlePrivate :=
  { oneTimePreKey := List.replicate 32 2, signedPreKey := List.replicate 32 3 }

/-- Proxy key store: the request itself fails. -/
def c8ApiEnvReqFail : Api.DRApiGetEnv :=
  { request := .error "timeout", aesUnmarshal := fun r => .ok r, aesDecrypt := fun c => .ok c }

/-- Proxy key store: ciphertext unmarshalling fails. -/
def c8ApiEnvCtFail : Api.DRApiGetEnv :=
  { request := .ok [1], aesUnmarshal := fun _ => .error "bad ciphertext",
    aesDecrypt := fun c => .ok c }

/-- Proxy key store: decryption fails. -/
def c8ApiEnvDecFail : Api.DRApiGetEnv :=
  { request := .ok [1], aesUnmarshal := fun r => .ok r,
    aesDecrypt := fun _ => .error "bad key" }

/-- Proxy key store: the decrypted key has the wrong length. -/
def c8ApiEnvBadLen : Api.DRApiGetEnv :=
  { request := .ok [1], aesUnmarshal := fun r => .ok r, aesDecrypt := fun c => .ok c }

/-- Client key store: the device-api send fails. -/
def c8ClientEnvSendFail : Client.ClientKSEnv :=
  { send := fun _ => .error "no api", respError := none,
    unmarshalGetResponse := .ok { key := List.replicate 32 1, ok := true },
    aesEncrypt := fun b => .ok b }

/-- Client key store: the device answers with an error. -/
def c8ClientEnvRespErr : Client.ClientKSEnv :=
  { send := fun _ => .ok (), respError := some "device failure",
    unmarshalGetResponse := .ok { key := List.replicate 32 1, ok := true },
    aesEncrypt := fun b => .ok b }

/-- Client key store: the response payload cannot be unmarshalled. -/
def c8ClientEnvUnmarshalFail : Client.ClientKSEnv :=
  { send := fun _ => .ok (), respError := none,
    unmarshalGetResponse := .error "undecryptable", aesEncrypt := fun b => .ok b }

/-! ## Helper lemmas -/

theorem walkBack_length_le (entries : Db.MsgStore) :
    ∀ (n idx : Nat), (Db.walkBack entries idx n).length ≤ n := by
  intro n
  induction n with
  | zero => intro idx; cases idx <;> simp [Db.walkBack]
  | succ n ih =>
    intro idx
    cases idx with
    | zero => simp [Db.walkBack]
    | succ j =>
      simp only [Db.walkBack]
      cases entries.get? j with
      | none => simp
      | some e => simpa using ih j

theorem generateKeyPairs_length (env : Chat.PreKeysEnv) :
    ∀ (n i : Nat) (g : List Chat.KeyPair),
      Chat.generateKeyPairs env n i = .ok g → g.length = n := by
  intro n
  induction n with
  | zero =>
    intro i g h
    simp only [Chat.generateKeyPairs] at h
    cases h
    rfl
  | succ k ih =>
    intro i g h
    simp only [Chat.generateKeyPairs] at h
    cases hkp : env.generateKeyPair i with
    | error e => rw [hkp] at h; cases h
    | ok kp =>
      rw [hkp] at h
      cases hrest : Chat.generateKeyPairs env k (i + 1) with
      | error e => rw [hrest] at h; cases h
      | ok rest =>
        rw [hrest] at h
        cases h
        simpa using ih (i + 1) rest hrest

theorem signPreKeys_length (env : Chat.PreKeysEnv) :
    ∀ (ks : List Chat.KeyPair) (l : List Chat.SignedPreKeyProto),
      Chat.signPreKeys env ks = .ok l → l.length = ks.length := by
  intro ks
  induction ks with
  | nil =>
    intro l h
    simp only [Chat.signPreKeys] at h
    cases h
    rfl
  | cons kp rest ih =>
    intro l h
    simp only [Chat.signPreKeys] at h
    cases hs : env.sign kp.publicKey with
    | error e => simp only [hs] at h; exact Except.noConfusion h
    | ok sig =>
      simp only [hs] at h
      cases hp : env.toProtobuf kp sig with
      | error e => simp only [hp] at h; exact Except.noConfusion h
      | ok pkProto =>
        simp only [hp] at h
        cases hrest : Chat.signPreKeys env rest with
        | error e => simp only [hrest] at h; exact Except.noConfusion h
        | ok l' =>
          simp only [hrest] at h
          cases h
          simpa using ih l' hrest

theorem handlerLoop_all_ok (send : Backend.BackendMessage → Except String Unit)
    (reqID : String) (req : Backend.BRequest) :
    ∀ (handlers : List Backend.RequestHandler),
      (∀ h ∈ handlers, ∃ r, h req = .ok r) →
      (∀ m, send m = .ok ()) →
      Backend.handlerLoop send reqID req handlers =
        (handlers.length,
         handlers.filterMap (fun h => ((h req).toOption.join).map (Backend.responseReply reqID)),
         .ok ()) := by
  intro handlers
  induction handlers with
  | nil => intro _ _; rfl
  | cons h rest ih =>
    intro hok hsend
    obtain ⟨r, hr⟩ := hok h (List.mem_cons_self h rest)
    have hrest := ih (fun h' hh => hok h' (List.mem_cons_of_mem h hh)) hsend
    cases r with
    | none =>
      simp only [Backend.handlerLoop, hr, hrest, List.filterMap_cons, List.length_cons]
      simp [Except.toOption]
    | some resp =>
      simp only [Backend.handlerLoop, hr, hsend, hrest, List.filterMap_cons, List.length_cons]
      simp [Except.toOption]

/-! ## Claim theorems -/

set_option maxRecDepth 100000 in
/-- C3: evaluation of the persist pipeline at three sequential persists
carrying the identical creation timestamp 2147483648.  The first is
stored under key 2147483648, the second under 2147483649, but the
third — because the collision loop rewrites the key with
`CreatedAt + 1` on every retry instead of incrementing the current
key — exhausts its 1000 attempts, is stored again under the taken key
2147483649 (the same `DatabaseID` as the second persist, not a greater
one) and overwrites the second record. -/
theorem persistMessage_same_timestamp_not_increasing :
    Db.persistMessage [] c3MsgA = .ok (c3S1, 2147483648) ∧
    Db.persistMessage c3S1 c3MsgB = .ok (c3S2, 2147483649) ∧
    Db.persistMessage c3S2 c3MsgC = .ok (c3S3, 2147483649) := by
  refine ⟨?_, ?_, ?_⟩ <;> rfl

/-- C5: `Messages` fails when `amount < 1`, and whenever it succeeds it
returns at most `amount` records, sorted ascending by `DatabaseID`
(the final in-memory sort) regardless of the backward physical scan. -/
theorem messages_amount_and_order :
    ∀ (bucket : Option Db.MsgStore) (start : Int) (amount : Nat),
      (amount < 1 → Db.Messages bucket start amount = .error "invalid amount - must be at least one") ∧
      (∀ l, Db.Messages bucket start amount = .ok l →
        l.length ≤ amount ∧ l.Sorted Db.msgLe) := by
  intro bucket start amount
  constructor
  · intro h
    simp [Db.Messages, h]
  · intro l hl
    by_cases ha : amount < 1
    · simp [Db.Messages, ha] at hl
    · rw [Db.Messages.eq_def, if_neg ha] at hl
      cases bucket with
      | none =>
        cases hl
        simp [List.Sorted]
      | some entries =>
        dsimp only at hl
        cases hseek : Db.seekIdx entries start with
        | none => rw [hseek] at hl; simp [Db.decRawMsg] at hl
        | some idx =>
          rw [hseek] at hl
          dsimp only at hl
          cases hget : (entries.get? idx).map Prod.snd with
          | none => rw [hget] at hl; simp [Db.decRawMsg] at hl
          | some m =>
            rw [hget] at hl
            simp only [Db.decRawMsg] at hl
            cases hl
            constructor
            · rw [List.length_insertionSort]
              have hw := walkBack_length_le entries (amount - 1) idx
              simp only [List.length_cons]
              omega
            · exact List.sorted_insertionSort Db.msgLe _

/-- C5 witness: a zero amount is rejected; a request for three records
over a one-record bucket yields that single record, within bound and
sorted. -/
theorem messages_amount_and_order_witness :
    Db.Messages (some [(3000000000, w5Msg)]) 0 0 = .error "invalid amount - must be at least one" ∧
    ([w5Msg].length ≤ 3 ∧ [w5Msg].Sorted Db.msgLe) :=
  ⟨(messages_amount_and_order (some [(3000000000, w5Msg)]) 0 0).1 (by decide),
   (messages_amount_and_order (some [(3000000000, w5Msg)]) 0 3).2 [w5Msg] rfl⟩

/-- C4: the one-time pre-key replenishment handler rejects every count
above 100 with an error, and for 1 ≤ n ≤ 100 a successful run
generates exactly n key pairs, hands exactly that list to the pre-key
pool in a single `Put`, and answers with exactly n signed pre-keys. -/
theorem oneTimePreKeysHandler_bounds :
    ∀ (env : Chat.PreKeysEnv) (n : Nat),
      (n > 100 → Chat.oneTimePreKeysHandler env n =
        ([], .error "requested more then the max allowed pre keys")) ∧
      (1 ≤ n → n ≤ 100 → ∀ puts l,
        Chat.oneTimePreKeysHandler env n = (puts, .ok (some l)) →
        ∃ g, Chat.generateKeyPairs env n 0 = .ok g ∧ puts = [g] ∧
          g.length = n ∧ l.length = n ∧ env.putResult g = .ok ()) := by
  intro env n
  constructor
  · intro h
    have h0 : ¬ n = 0 := by omega
    simp [Chat.oneTimePreKeysHandler, h0, h]
  · intro h1 h100 puts l heq
    have h0 : ¬ n = 0 := by omega
    have hgt : ¬ n > 100 := by omega
    rw [Chat.oneTimePreKeysHandler, if_neg h0, if_neg hgt] at heq
    cases hg : Chat.generateKeyPairs env n 0 with
    | error e => simp only [hg] at heq; cases heq
    | ok g =>
      simp only [hg] at heq
      cases hput : env.putResult g with
      | error e => simp only [hput] at heq; cases heq
      | ok u =>
        simp only [hput] at heq
        cases hsig : Chat.signPreKeys env g with
        | error e => simp only [hsig] at heq; cases heq
        | ok l' =>
          simp only [hsig] at heq
          cases heq
          refine ⟨g, rfl, rfl, generateKeyPairs_length env n 0 g hg, ?_, ?_⟩
          · have h2 := signPreKeys_length env g _ hsig
            have h3 := generateKeyPairs_length env n 0 g hg
            omega
          · cases u; exact hput

/-- C4 witness: 101 keys are rejected; a request of 100 against an
all-successful environment produces and persists exactly 100 pairs and
returns exactly 100 signed pre-keys. -/
theorem oneTimePreKeysHandler_bounds_witness :
    Chat.oneTimePreKeysHandler c4Env 101 =
      ([], .error "requested more then the max allowed pre keys") ∧
    ∃ g, Chat.generateKeyPairs c4Env 100 0 = .ok g ∧ [c4Gen] = [g] ∧
      g.length = 100 ∧ c4Signed.length = 100 ∧ c4Env.putResult g = .ok () :=
  ⟨(oneTimePreKeysHandler_bounds c4Env 101).1 (by decide),
   (oneTimePreKeysHandler_bounds c4Env 100).2 (by decide) (by decide) [c4Gen] c4Signed rfl⟩

/-- C2 (counterexample): an inbound request offered to two handlers
that both return a non-nil response runs both handlers and sends both
responses to the peer — dispatch does not stop at the first non-nil
response, and more than one response goes out for the request. -/
theorem onMessage_two_handlers_two_responses :
    (Backend.onMessage [c2HandlerA, c2HandlerB] c2SendOk [] false c2ReqMsg).handlersInvoked = 2 ∧
    (Backend.onMessage [c2HandlerA, c2HandlerB] c2SendOk [] false c2ReqMsg).sends =
      [Backend.responseReply "1" c2RespA, Backend.responseReply "1" c2RespB] :=
  ⟨rfl, rfl⟩

/-- C2 (amended): handlers are invoked in registration order; when no
handler fails and the transport sends succeed, every handler runs and
the responses sent to the peer are exactly the non-nil handler
responses in order (so several handlers may each produce a response);
a handler error stops the chain immediately with a sanitized error
reply. -/
theorem onMessage_request_dispatch :
    (∀ (handlers : List Backend.RequestHandler) send stack auth
       (msg : Backend.BackendMessage) (req : Backend.BRequest),
      msg.request = some req → msg.response = none →
      (∀ h ∈ handlers, ∃ r, h req = .ok r) →
      (∀ m, send m = .ok ()) →
      Backend.onMessage handlers send stack auth msg =
        { sends := handlers.filterMap
            (fun h => ((h req).toOption.join).map (Backend.responseReply msg.requestID)),
          delivered := [], handlersInvoked := handlers.length,
          authenticated := auth, stackAfter := stack, outcome := .ok () }) ∧
    (∀ send reqID (req : Backend.BRequest) e (h : Backend.RequestHandler) rest,
      h req = .error e →
      Backend.handlerLoop send reqID req (h :: rest) =
        (1, [Backend.errorReply reqID e], send (Backend.errorReply reqID e))) := by
  constructor
  · intro handlers send stack auth msg req hreq hresp hok hsend
    rw [Backend.onMessage.eq_def]
    rw [hreq, hresp]
    dsimp only
    rw [handlerLoop_all_ok send msg.requestID req handlers hok hsend]
    rfl
  · intro send reqID req e h rest hr
    simp only [Backend.handlerLoop, hr]

/-- C2 witness: a declining handler followed by a responding handler
yields both invocations and exactly the one non-nil response; a
failing handler stops the chain with the sanitized error reply. -/
theorem onMessage_request_dispatch_witness :
    Backend.onMessage [c2HandlerNil, c2HandlerA] c2SendOk ["x"] false c2ReqMsg =
      { sends := [Backend.responseReply "1" c2RespA], delivered := [],
        handlersInvoked := 2, authenticated := false, stackAfter := ["x"],
        outcome := .ok () } ∧
    Backend.handlerLoop c2SendOk "1" { tag := 0 } [c2HandlerErr, c2HandlerA] =
      (1, [Backend.errorReply "1" "handler failure"],
       c2SendOk (Backend.errorReply "1" "handler failure")) :=
  ⟨(onMessage_request_dispatch).1 [c2HandlerNil, c2HandlerA] c2SendOk ["x"] false
      c2ReqMsg { tag := 0 } rfl rfl
      (by
        intro h hh
        rcases List.mem_cons.mp hh with rfl | hh2
        · exact ⟨none, rfl⟩
        · rcases List.mem_cons.mp hh2 with rfl | hh3
          · exact ⟨some c2RespA, rfl⟩
          · cases hh3)
      (fun _ => rfl),
   (onMessage_request_dispatch).2 c2SendOk "1" { tag := 0 } "handler failure"
      c2HandlerErr [c2HandlerA] rfl⟩

/-- C6: an envelope carrying both a request and a response makes the
dispatch turn fail before any handler runs and before any
correlation-table lookup (stack untouched, nothing sent or delivered);
and a response whose request id matches no outstanding request makes
the turn fail instead of being silently dropped. -/
theorem onMessage_envelope_guards :
    (∀ (handlers : List Backend.RequestHandler) send stack auth
       (msg : Backend.BackendMessage),
      msg.request.isSome = true → msg.response.isSome = true →
      Backend.onMessage handlers send stack auth msg =
        { sends := [], delivered := [], handlersInvoked := 0, authenticated := auth,
          stackAfter := stack,
          outcome := .error "a message cant have a response and a request at the same time" }) ∧
    (∀ (handlers : List Backend.RequestHandler) send (stack : List String) auth
       (msg : Backend.BackendMessage) (resp : Backend.BResponse),
      msg.request = none → msg.response = some resp →
      stack.contains msg.requestID = false →
      Backend.onMessage handlers send stack auth msg =
        { sends := [], delivered := [], handlersInvoked := 0, authenticated := auth,
          stackAfter := stack,
          outcome := .error ("failed to fetch response channel for id: " ++ msg.requestID) }) := by
  constructor
  · intro handlers send stack auth msg h1 h2
    rw [Backend.onMessage.eq_def]
    simp only [h1, h2, Bool.and_self, if_true]
  · intro handlers send stack auth msg resp h1 h2 h3
    rw [Backend.onMessage.eq_def]
    rw [h1, h2]
    simp only [Option.isSome_none, Bool.false_and, Bool.false_eq_true, if_false,
      Backend.cutStack, h3]

/-- C6 witness: the dual-typed envelope `c6BothMsg` is rejected with
the stack untouched and no handler invoked; the orphan response
`c6OrphanMsg` fails the turn against a stack holding only "a". -/
theorem onMessage_envelope_guards_witness :
    Backend.onMessage [c6Handler] c6SendOk ["a"] false c6BothMsg =
      { sends := [], delivered := [], handlersInvoked := 0, authenticated := false,
        stackAfter := ["a"],
        outcome := .error "a message cant have a response and a request at the same time" } ∧
    Backend.onMessage [c6Handler] c6SendOk ["a"] false c6OrphanMsg =
      { sends := [], delivered := [], handlersInvoked := 0, authenticated := false,
        stackAfter := ["a"],
        outcome := .error ("failed to fetch response channel for id: " ++ c6OrphanMsg.requestID) } :=
  ⟨(onMessage_envelope_guards).1 [c6Handler] c6SendOk ["a"] false c6BothMsg rfl rfl,
   (onMessage_envelope_guards).2 [c6Handler] c6SendOk ["a"] false c6OrphanMsg
      { auth := none, payload := 0 } rfl rfl (by decide)⟩

/-- C1 (counterexample): a `SendMessage` call that fails while signing
the fresh ephemeral key surfaces the error without any status write —
no `FailedToSend` is recorded for that message, so not every failing
step records the status before surfacing the error. -/
theorem sendMessage_unrecorded_failure :
    Chat.SendMessage c1EnvD "msg-1" = ([], .error "identity sign failure") := rfl

/-- C1 (amended): failures at steps routed through `handleSendError`
(here: the shared-secret existence check and the backend submission)
issue the `FailedToSend` status write before surfacing the original
error, and when that write itself fails the surfaced error combines
both texts, keeping the original; but a failure at the ephemeral-key
signature step surfaces its error with no status write at all; and the
Bolt store's own `UpdateStatus` is an unimplemented no-op. -/
theorem sendMessage_status_bookkeeping :
    (∀ (env : Chat.SendEnv) (msgID : String) (e : String),
      env.hasAny = .error e → env.updateStatus Db.StatusFailedToSend = .ok () →
      Chat.SendMessage env msgID = ([(msgID, Db.StatusFailedToSend)], .error e)) ∧
    (∀ (env : Chat.SendEnv) (msgID : String) (e u : String),
      env.hasAny = .error e → env.updateStatus Db.StatusFailedToSend = .error u →
      Chat.SendMessage env msgID =
        ([(msgID, Db.StatusFailedToSend)],
         .error ("failed to update status with error: " ++ u ++ " - original error: " ++ e))) ∧
    (∀ (env : Chat.SendEnv) (msgID : String) (e : String)
       (ss : Chat.SharedSecret) (spk : Chat.PreKey) (pm : Bytes) (ip : String) (sd : Bytes),
      env.hasAny = .ok true → env.getYoungest = .ok ss → ss.accepted = true →
      env.hasSignedPreKey = .ok true → env.getSignedPreKey = .ok spk →
      env.verifySignature spk = .ok true → spk.expired = false →
      env.newWithRemoteKey ss.x3dhSS spk.publicKey = .ok () →
      env.protoMarshal = .ok pm → env.identityPublicKey = .ok ip →
      env.hexDecodeStr ip = .ok sd →
      env.submitMessage = .error e →
      env.updateStatus Db.StatusFailedToSend = .ok () →
      Chat.SendMessage env msgID = ([(msgID, Db.StatusFailedToSend)], .error e)) ∧
    (∀ (env : Chat.SendEnv) (msgID : String) (e : String) (b : Nat)
       (ip : Chat.InitializedProtocol),
      env.hasAny = .ok false → env.fetchPreKeyBundle = .ok b →
      env.calculateSecret = .ok ip → env.identitySign ip.ephemeralKey = .error e →
      Chat.SendMessage env msgID = ([], .error e)) ∧
    (∀ (s : Db.MsgStore) (id : Int) (st : Nat), Db.UpdateStatus s id st = .ok s) := by
  refine ⟨?_, ?_, ?_, ?_, ?_⟩
  · intro env msgID e h1 h2
    simp [Chat.SendMessage, Chat.handleSendError, h1, h2]
  · intro env msgID e u h1 h2
    simp [Chat.SendMessage, Chat.handleSendError, h1, h2]
  · intro env msgID e ss spk pm ip sd h1 h2 h3 h4 h5 h6 h7 h8 h9 h10 h11 h12 h13
    simp [Chat.SendMessage, Chat.handleSendError, Chat.fetchSignedPreKeyStep,
      Chat.expiredStep, Chat.attachHandshake,
      h1, h2, h3, h4, h5, h6, h7, h8, h9, h10, h11, h12, h13]
  · intro env msgID e b ip h1 h2 h3 h4
    simp [Chat.SendMessage, Chat.handleSendError, Chat.createSecretStep, h1, h2, h3, h4]
  · intro s id st
    rfl

/-- C1 witness: the four failure shapes evaluated on concrete
environments, plus the store stub. -/
theorem sendMessage_status_bookkeeping_witness :
    Chat.SendMessage c1EnvA "m" = ([("m", Db.StatusFailedToSend)], .error "has any failure") ∧
    Chat.SendMessage c1EnvB "m" =
      ([("m", Db.StatusFailedToSend)],
       .error "failed to update status with error: status write failure - original error: has any failure") ∧
    Chat.SendMessage c1EnvC "m" = ([("m", Db.StatusFailedToSend)], .error "submit failure") ∧
    Chat.SendMessage c1EnvD "m" = ([], .error "identity sign failure") ∧
    Db.UpdateStatus [] 5 Db.StatusFailedToSend = .ok [] :=
  ⟨(sendMessage_status_bookkeeping).1 c1EnvA "m" "has any failure" rfl rfl,
   (sendMessage_status_bookkeeping).2.1 c1EnvB "m" "has any failure" "status write failure" rfl rfl,
   (sendMessage_status_bookkeeping).2.2.1 c1EnvC "m" "submit failure" c1SS c1SPK [1] "aa"
      [170] rfl rfl rfl rfl rfl rfl rfl rfl rfl rfl rfl rfl rfl,
   (sendMessage_status_bookkeeping).2.2.2.1 c1EnvD "m" "identity sign failure" 0
      { sharedSecret := List.replicate 32 1, usedOneTimePreKey := none,
        usedSignedPreKey := List.replicate 32 2, ephemeralKey := List.replicate 32 3 }
      rfl rfl rfl rfl,
   (sendMessage_status_bookkeeping).2.2.2.2 [] 5 Db.StatusFailedToSend⟩

/-- C7 (counterexample): a handshake message with the sentinel type
and a present ephemeral key but an absent (empty) remote identity key
in the ratchet header is accepted — the handler derives and returns a
shared secret instead of rejecting the message. -/
theorem handleInitialMessage_absent_identity_accepted :
    c7Msg.doubleratchetMessage.header.dh = [] ∧
    Chat.HandleInitialMessage c7SecretOk c7Msg c7Bundle = .ok (List.replicate 32 1) :=
  ⟨rfl, rfl⟩

/-- C7 (amended): the handler rejects a wrong message type and a
missing ephemeral key, and otherwise copies the remote identity key
out of the ratchet header without any absence check and returns
whatever secret the key agreement derives. -/
theorem handleInitialMessage_validation :
    (∀ sfr (m : Chat.ChatInitMessage) b, m.typ ≠ "PROTOCOL_INITIALISATION" →
      Chat.HandleInitialMessage sfr m b =
        .error "message must be of type PROTOCOL_INITIALISATION") ∧
    (∀ sfr (m : Chat.ChatInitMessage) b, m.typ = "PROTOCOL_INITIALISATION" →
      Chat.lookupData m.additionalData "ephemeral_key" = none →
      Chat.HandleInitialMessage sfr m b = .error "missing ephemeral_key") ∧
    (∀ sfr (m : Chat.ChatInitMessage) (b : Chat.PreKeyBundlePrivate) s raw sec,
      m.typ = "PROTOCOL_INITIALISATION" →
      Chat.lookupData m.additionalData "ephemeral_key" = some s →
      hexDecode s = .ok raw →
      sfr { remoteIdKey := copyTo32 m.doubleratchetMessage.header.dh,
            remoteEphemeralKey := copyTo32 raw,
            myOneTimePreKey := b.oneTimePreKey,
            mySignedPreKey := b.signedPreKey } = .ok sec →
      Chat.HandleInitialMessage sfr m b = .ok sec) := by
  refine ⟨?_, ?_, ?_⟩
  · intro sfr m b h
    simp [Chat.HandleInitialMessage, h]
  · intro sfr m b h1 h2
    simp [Chat.HandleInitialMessage, h1, h2]
  · intro sfr m b s raw sec h1 h2 h3 h4
    simp [Chat.HandleInitialMessage, h1, h2, h3, h4]

/-- C7 witness: the three validation shapes evaluated on concrete
messages. -/
theorem handleInitialMessage_validation_witness :
    Chat.HandleInitialMessage c7SecretOk c7BadTypeMsg c7Bundle =
      .error "message must be of type PROTOCOL_INITIALISATION" ∧
    Chat.HandleInitialMessage c7SecretOk c7NoKeyMsg c7Bundle = .error "missing ephemeral_key" ∧
    Chat.HandleInitialMessage c7SecretOk c7Msg c7Bundle = .ok (List.replicate 32 1) :=
  ⟨(handleInitialMessage_validation).1 c7SecretOk c7BadTypeMsg c7Bundle (by decide),
   (handleInitialMessage_validation).2.1 c7SecretOk c7NoKeyMsg c7Bundle rfl rfl,
   (handleInitialMessage_validation).2.2 c7SecretOk c7Msg c7Bundle "aa" [170]
      (List.replicate 32 1) rfl rfl rfl rfl⟩

/-- C8: every failure of the remote-proxy key store `Get` — transport
error or timeout, malformed ciphertext, decryption failure, a
decrypted key that is not exactly 32 bytes, a device-api send failure,
a device error reply, or an unmarshallable response — yields
`(zero key, false)`, a plain cache miss; no variant propagates an
error to the caller. -/
theorem drKeyStoreGet_degrades_to_miss :
    (∀ (env : Api.DRApiGetEnv) e, env.request = .error e →
      Api.DRKeyStoreApiGet env = (Api.zeroKey, false)) ∧
    (∀ (env : Api.DRApiGetEnv) raw e, env.request = .ok raw →
      env.aesUnmarshal raw = .error e →
      Api.DRKeyStoreApiGet env = (Api.zeroKey, false)) ∧
    (∀ (env : Api.DRApiGetEnv) raw ct e, env.request = .ok raw →
      env.aesUnmarshal raw = .ok ct → env.aesDecrypt ct = .error e →
      Api.DRKeyStoreApiGet env = (Api.zeroKey, false)) ∧
    (∀ (env : Api.DRApiGetEnv) raw ct mk, env.request = .ok raw →
      env.aesUnmarshal raw = .ok ct → env.aesDecrypt ct = .ok mk →
      mk.length ≠ 32 → Api.DRKeyStoreApiGet env = (Api.zeroKey, false)) ∧
    (∀ (env : Client.ClientKSEnv) (k : Bytes) (n : Nat) e,
      env.send (Client.KSCall.getCall (hexEncode k) n) = .error e →
      Client.clientGet env k n =
        ([Client.KSCall.getCall (hexEncode k) n], (Api.zeroKey, false))) ∧
    (∀ (env : Client.ClientKSEnv) (k : Bytes) (n : Nat) s,
      env.send (Client.KSCall.getCall (hexEncode k) n) = .ok () →
      env.respError = some s →
      Client.clientGet env k n =
        ([Client.KSCall.getCall (hexEncode k) n], (Api.zeroKey, false))) ∧
    (∀ (env : Client.ClientKSEnv) (k : Bytes) (n : Nat) e,
      env.send (Client.KSCall.getCall (hexEncode k) n) = .ok () →
      env.respError = none → env.unmarshalGetResponse = .error e →
      Client.clientGet env k n =
        ([Client.KSCall.getCall (hexEncode k) n], (Api.zeroKey, false))) := by
  refine ⟨?_, ?_, ?_, ?_, ?_, ?_, ?_⟩
  · intro env e h
    simp [Api.DRKeyStoreApiGet, h]
  · intro env raw e h1 h2
    simp [Api.DRKeyStoreApiGet, h1, h2]
  · intro env raw ct e h1 h2 h3
    simp [Api.DRKeyStoreApiGet, h1, h2, h3]
  · intro env raw ct mk h1 h2 h3 h4
    simp [Api.DRKeyStoreApiGet, h1, h2, h3, h4]
  · intro env k n e h
    simp [Client.clientGet, h]
  · intro env k n s h1 h2
    simp [Client.clientGet, h1, h2]
  · intro env k n e h1 h2 h3
    simp [Client.clientGet, Client.unmarshalFailureResponse, h1, h2, h3, Api.zeroKey]

/-- C8 witness: all seven failure shapes evaluated on concrete
environments (the proxy key `[3]`, message number 4). -/
theorem drKeyStoreGet_degrades_to_miss_witness :
    Api.DRKeyStoreApiGet c8ApiEnvReqFail = (Api.zeroKey, false) ∧
    Api.DRKeyStoreApiGet c8ApiEnvCtFail = (Api.zeroKey, false) ∧
    Api.DRKeyStoreApiGet c8ApiEnvDecFail = (Api.zeroKey, false) ∧
    Api.DRKeyStoreApiGet c8ApiEnvBadLen = (Api.zeroKey, false) ∧
    Client.clientGet c8ClientEnvSendFail [3] 4 =
      ([Client.KSCall.getCall (hexEncode [3]) 4], (Api.zeroKey, false)) ∧
    Client.clientGet c8ClientEnvRespErr [3] 4 =
      ([Client.KSCall.getCall (hexEncode [3]) 4], (Api.zeroKey, false)) ∧
    Client.clientGet c8ClientEnvUnmarshalFail [3] 4 =
      ([Client.KSCall.getCall (hexEncode [3]) 4], (Api.zeroKey, false)) :=
  ⟨(drKeyStoreGet_degrades_to_miss).1 c8ApiEnvReqFail "timeout" rfl,
   (drKeyStoreGet_degrades_to_miss).2.1 c8ApiEnvCtFail [1] "bad ciphertext" rfl rfl,
   (drKeyStoreGet_degrades_to_miss).2.2.1 c8ApiEnvDecFail [1] [1] "bad key" rfl rfl rfl,
   (drKeyStoreGet_degrades_to_miss).2.2.2.1 c8ApiEnvBadLen [1] [1] [1] rfl rfl rfl (by decide),
   (drKeyStoreGet_degrades_to_miss).2.2.2.2.1 c8ClientEnvSendFail [3] 4 "no api" rfl,
   (drKeyStoreGet_degrades_to_miss).2.2.2.2.2.1 c8ClientEnvRespErr [3] 4 "device failure" rfl rfl,
   (drKeyStoreGet_degrades_to_miss).2.2.2.2.2.2 c8ClientEnvUnmarshalFail [3] 4
      "undecryptable" rfl rfl rfl⟩

/-- C9: the client-package key store's `Count` answers the constant 9
with no device-api request, and `DeletePk` performs nothing at all —
both are stubs, unlike `Put`/`DeleteMk`, which do issue requests. -/
theorem clientKeyStore_stub_surface :
    ∀ (k : Bytes) (n : Nat) (mk : Bytes) (env : Client.ClientKSEnv),
      Client.clientCount k = ([], 9) ∧
      Client.clientDeletePk k = ([], ()) ∧
      (Client.clientPut env k n mk).1 ≠ [] ∧
      (Client.clientDeleteMk k n).1 ≠ [] :=
  fun k n mk env => ⟨rfl, rfl, by simp [Client.clientPut], by simp [Client.clientDeleteMk]⟩

/-- C10: every exported api function returns an error and performs no
collaborator call while no panthalassa instance is live (the instance
state stays `none`), and `start` refuses when an instance already
exists, leaving it in place — so at most one live instance can exist. -/
theorem exported_api_singleton_guard :
    ∀ (env : App.AppEnv) (data addr id key : String) (n : Int) (p : App.Instance),
      App.EthPrivateKey none env = ([], none, .error "you have to start panthalassa") ∧
      App.EthAddress none env = ([], none, .error "you have to start panthalassa") ∧
      App.SendResponse none env data = ([], none, .error "you have to start panthalassa") ∧
      App.ExportAccountStore none env = ([], none, .error "you have to start panthalassa") ∧
      App.IdentityPublicKey none env = ([], none, .error "you have to start panthalassa") ∧
      App.GetMnemonic none env = ([], none, .error "you have to start panthalassa") ∧
      App.SignProfile none env = ([], none, .error "you have to start panthalassa") ∧
      App.Stop none env = ([], none, .error "you have to start panthalassa in order to stop it") ∧
      App.GetIdentityPublicKey none env = ([], none, .error "you have to start panthalassa first") ∧
      App.ConnectToDAppDevHost none env addr = ([], none, .error "you have to start panthalassa first") ∧
      App.OpenDApp none env id = ([], none, .error "you have to start panthalassa first") ∧
      App.StartDApp none env key = ([], none, .error "you have to start panthalassa first") ∧
      App.RenderMessage none env key = ([], none, .error "you have to start panthalassa first") ∧
      App.CallDAppFunction none env key n =
        ([], none, .error (if n < 0 then "got negative number but need uint"
                           else "you have to start panthalassa first")) ∧
      App.StopDApp none env key = ([], none, .error "you have to start panthalassa first") ∧
      App.DApps none env = ([], none, .error "you have to start panthalassa first") ∧
      App.start (some p) env =
        ([], some p, .error "call stop first in order to create a new panthalassa instance") := by
  intro env data addr id key n p
  refine ⟨rfl, rfl, rfl, rfl, rfl, rfl, rfl, rfl, rfl, rfl, rfl, rfl, rfl, ?_, rfl, rfl, rfl⟩
  by_cases h : n < 0 <;> simp [App.CallDAppFunction, h]

end Panthalassa
